import Mathlib

/-!
Shallow embedding of the single-table DynamoDB access layer of the
photo-sharing backend (`app/models/album/dynamo.py`, `app/mixins/flag/dynamo.py`,
`migrations/post_0_to_1.py`), together with the spec-modelled parts of the
dynamo client wrapper and the `user_6_to_7` migration whose sources are not in
the repository snapshot (only their tests and callers are).

Items are flat attribute maps (with one level of nesting for map-valued
attributes such as `postedBy`); the table is a list of items keyed by
`(partitionKey, sortKey)`.  Conditional writes are modelled as explicit state
passing: each operation takes the table and returns the new table paired with
an `Except` result, the table component being unchanged whenever the operation
raises.
-/

set_option autoImplicit false

namespace Backend

/-- A DynamoDB attribute value: a string, a number, or a (one-level) map. -/
inductive AttrVal where
  | str (s : String)
  | num (n : Int)
  | map (m : List (String × AttrVal))

/-- A stored item: the two key attributes plus the remaining attributes. -/
structure Item where
  partitionKey : String
  sortKey : String
  attrs : List (String × AttrVal)

/-- The single physical table. -/
abbrev Table := List Item

/-- Look up attribute `a` of an item; the key attributes are themselves
attributes, as in DynamoDB. -/
def Item.getAttr (it : Item) (a : String) : Option AttrVal :=
  if a == "partitionKey" then some (.str it.partitionKey)
  else if a == "sortKey" then some (.str it.sortKey)
  else it.attrs.lookup a

/-- Numeric view of an attribute (`none` when absent or not a number). -/
def Item.getNum (it : Item) (a : String) : Option Int :=
  match it.getAttr a with
  | some (.num n) => some n
  | _ => none

/-- String view of an attribute (`none` when absent or not a string). -/
def Item.getStr (it : Item) (a : String) : Option String :=
  match it.getAttr a with
  | some (.str s) => some s
  | _ => none

/-- Set attribute `k` to `v`, in place when present, appended otherwise. -/
def setAttrList (attrs : List (String × AttrVal)) (k : String) (v : AttrVal) :
    List (String × AttrVal) :=
  match attrs with
  | [] => [(k, v)]
  | (k', v') :: rest =>
    if k' == k then (k, v) :: rest else (k', v') :: setAttrList rest k v

/-- Remove attribute `k` when present. -/
def removeAttrList (attrs : List (String × AttrVal)) (k : String) :
    List (String × AttrVal) :=
  attrs.filter (fun p => p.1 != k)

/-- Find the item with the given primary key, if any. -/
def findItem (tbl : Table) (pk sk : String) : Option Item :=
  List.find? (fun it => it.partitionKey == pk && it.sortKey == sk) tbl

/-- Replace the item with the given primary key by `it'`. -/
def replaceItem (tbl : Table) (pk sk : String) (it' : Item) : Table :=
  List.map (fun it => if it.partitionKey == pk && it.sortKey == sk then it' else it) tbl

/-- Remove the item with the given primary key. -/
def removeItem (tbl : Table) (pk sk : String) : Table :=
  List.filter (fun it => !(it.partitionKey == pk && it.sortKey == sk)) tbl

/-- Semantic form of a `ConditionExpression`. -/
inductive Cond where
  | true
  | and (c1 c2 : Cond)
  | not (c : Cond)
  | attrExists (a : String)
  | attrNotExists (a : String)
  | eqNum (a : String) (v : Int)
  | gtNum (a : String) (v : Int)
  deriving DecidableEq

/-- Evaluate a condition against the current item at the key (`none` when the
key is unoccupied; every attribute test is then false, as in DynamoDB). -/
def evalCond (it : Option Item) : Cond → Bool
  | .true => Bool.true
  | .and c1 c2 => evalCond it c1 && evalCond it c2
  | .not c => !evalCond it c
  | .attrExists a =>
    match it with
    | some it => (it.getAttr a).isSome
    | none => false
  | .attrNotExists a =>
    match it with
    | some it => (it.getAttr a).isNone
    | none => false
  | .eqNum a v =>
    match it with
    | some it => it.getNum a == some v
    | none => false
  | .gtNum a v =>
    match it with
    | some it =>
      match it.getNum a with
      | some n => v < n
      | none => false
    | none => false

/-- One clause of an `UpdateExpression`. -/
inductive UpdateAction where
  | addNum (a : String) (delta : Int)
  | setVal (a : String) (v : AttrVal)
  | setFromMapField (a src field : String)
  | remove (a : String)

/-- Apply one update clause to an item's attributes.  `ADD` on an absent
attribute treats it as `0`, as in DynamoDB. -/
def applyAction (attrs : List (String × AttrVal)) : UpdateAction → List (String × AttrVal)
  | .addNum a delta =>
    match attrs.lookup a with
    | some (.num n) => setAttrList attrs a (.num (n + delta))
    | _ => setAttrList attrs a (.num delta)
  | .setVal a v => setAttrList attrs a v
  | .setFromMapField a src field =>
    match attrs.lookup src with
    | some (.map m) =>
      match m.lookup field with
      | some v => setAttrList attrs a v
      | none => attrs
    | _ => attrs
  | .remove a => removeAttrList attrs a

/-- A conditional single-item update (the semantic content of the
`Key` / `UpdateExpression` / `ConditionExpression` kwargs). -/
structure UpdateOp where
  keyPk : String
  keySk : String
  actions : List UpdateAction
  cond : Cond

/-- Store-level error raised by a failed conditional write. -/
inductive DynErr where
  | conditionalCheckFailedException
  deriving DecidableEq

/-- Execute a conditional update against the table: when the condition holds
the clauses are applied (the item being created when absent, as DynamoDB's
`update_item` does); otherwise the write is rejected and the table is
unchanged. -/
def runUpdateOp (tbl : Table) (op : UpdateOp) : Table × Except DynErr Item :=
  let it? := findItem tbl op.keyPk op.keySk
  if evalCond it? op.cond then
    match it? with
    | some it =>
      let it' : Item := ⟨it.partitionKey, it.sortKey, op.actions.foldl applyAction it.attrs⟩
      (replaceItem tbl op.keyPk op.keySk it', .ok it')
    | none =>
      let it' : Item := ⟨op.keyPk, op.keySk, op.actions.foldl applyAction []⟩
      (tbl ++ [it'], .ok it')
  else
    (tbl, .error .conditionalCheckFailedException)

/-- Modelled from the spec: the dynamo client wrapper (`app/clients/dynamo.py`
is not in the snapshot).  `putItemIfAbsent`: inserts the item, raising the
store's conditional-check failure when the primary key is already present
(spec section 6, and section 4.2 `create`). -/
def add_item (tbl : Table) (it : Item) : Table × Except DynErr Item :=
  if (findItem tbl it.partitionKey it.sortKey).isSome then
    (tbl, .error .conditionalCheckFailedException)
  else
    (tbl ++ [it], .ok it)

/-- Modelled from the spec: the dynamo client wrapper's `deleteItemIfPresent`
(spec section 6): removes and returns the item when present, returns nothing
when absent. -/
def delete_item (tbl : Table) (pk sk : String) : Table × Option Item :=
  match findItem tbl pk sk with
  | some it => (removeItem tbl pk sk, some it)
  | none => (tbl, none)

/-- Modelled from the spec: the dynamo client wrapper's fail-soft
`update_item(query_kwargs, failure_warning=...)` (spec section 4.2
`updateConditional`): on a conditional-check failure it logs the supplied
warning and returns the failure instead of raising; the result is the new
table, the warnings logged, and the updated item when the write went through. -/
def update_item_fail_soft (tbl : Table) (op : UpdateOp) (failure_warning : String) :
    Table × List String × Option Item :=
  match runUpdateOp tbl op with
  | (tbl', .ok it') => (tbl', [], some it')
  | (_, .error _) => (tbl, [failure_warning], none)

/-- The typed domain errors of `app/models/album/exceptions.py` and
`app/mixins/flag/exceptions.py`. -/
inductive DomainErr where
  | albumAlreadyExists (album_id : String)
  | albumDoesNotExist (album_id : String)
  | alreadyFlagged (item_type item_id user_id : String)
  | notFlagged (item_type item_id user_id : String)
  deriving DecidableEq

/-- Errors that `AlbumDynamo.set` can raise: a failed `assert`, or a
propagated raw store error. -/
inductive SetErr where
  | assertionError (msg : String)
  | storeError (e : DynErr)
  deriving DecidableEq

namespace AlbumDynamo

/-- `AlbumDynamo.pk`: the primary key of an album record. -/
def pk (album_id : String) : String × String :=
  ("album/" ++ album_id, "-")

/-- `AlbumDynamo.get_album`. -/
def get_album (tbl : Table) (album_id : String) : Option Item :=
  findItem tbl (pk album_id).1 (pk album_id).2

/-- The fresh album record put by `add_album` (the `Item` of its
`query_kwargs`, with `description` included only when supplied). -/
def album_item (album_id user_id name : String) (description : Option String)
    (created_at_str : String) : Item :=
  ⟨(pk album_id).1, (pk album_id).2,
   [("schemaVersion", .num 0),
    ("gsiA1PartitionKey", .str ("album/" ++ user_id)),
    ("gsiA1SortKey", .str created_at_str),
    ("albumId", .str album_id),
    ("ownedByUserId", .str user_id),
    ("createdAt", .str created_at_str),
    ("name", .str name)]
   ++ (match description with
       | some d => [("description", .str d)]
       | none => [])⟩

/-- `AlbumDynamo.add_album`: put-if-absent of a fresh album record, with the
raw conditional-check failure translated to `AlbumAlreadyExists`. -/
def add_album (tbl : Table) (album_id user_id name : String)
    (description : Option String) (created_at_str : String) :
    Table × Except DomainErr Item :=
  match add_item tbl (album_item album_id user_id name description created_at_str) with
  | (tbl', .ok it) => (tbl', .ok it)
  | (tbl', .error .conditionalCheckFailedException) =>
    (tbl', .error (.albumAlreadyExists album_id))

/-- `AlbumDynamo.set`: partial update of `name` / `description`, with the
source's two leading asserts and the empty-string-removes convention for
`description`. -/
def set (tbl : Table) (album_id : String) (name description : Option String) :
    Table × Except SetErr Item :=
  if name.isNone && description.isNone then
    (tbl, .error (.assertionError "Action-less post edit requested"))
  else if name == some "" then
    (tbl, .error (.assertionError "All albums must have names"))
  else
    let setActions : List UpdateAction :=
      (match name with
       | some n => [.setVal "name" (.str n)]
       | none => []) ++
      (match description with
       | some d => if d == "" then [] else [.setVal "description" (.str d)]
       | none => [])
    let removeActions : List UpdateAction :=
      match description with
      | some d => if d == "" then [.remove "description"] else []
      | none => []
    let op : UpdateOp :=
      ⟨(pk album_id).1, (pk album_id).2, setActions ++ removeActions, .true⟩
    match runUpdateOp tbl op with
    | (tbl', .ok it) => (tbl', .ok it)
    | (tbl', .error e) => (tbl', .error (.storeError e))

/-- `AlbumDynamo.set_delete_at_fail_soft`: best-effort scheduling of deferred
deletion in the GSI-K1 index, conditioned on `NOT postCount > 0`, executed via
the fail-soft client update. -/
def set_delete_at_fail_soft (tbl : Table) (album_id delete_at : String) :
    Table × List String × Option Item :=
  let op : UpdateOp :=
    ⟨(pk album_id).1, (pk album_id).2,
     [.setVal "gsiK1PartitionKey" (.str "album"), .setVal "gsiK1SortKey" (.str delete_at)],
     .not (.gtNum "postCount" 0)⟩
  update_item_fail_soft tbl op
    ("Failed to set deleteAt GSI for album `" ++ album_id ++ "`")

/-- `AlbumDynamo.clear_delete_at_fail_soft`: best-effort unscheduling of
deferred deletion, executed via the fail-soft client update. -/
def clear_delete_at_fail_soft (tbl : Table) (album_id : String) :
    Table × List String × Option Item :=
  let op : UpdateOp :=
    ⟨(pk album_id).1, (pk album_id).2,
     [.remove "gsiK1PartitionKey", .remove "gsiK1SortKey"],
     .true⟩
  update_item_fail_soft tbl op
    ("Failed to clear deleteAt GSI for album `" ++ album_id ++ "`")

/-- `AlbumDynamo.delete_album`: delete, raising `AlbumDoesNotExist` when
nothing was deleted. -/
def delete_album (tbl : Table) (album_id : String) : Table × Except DomainErr Item :=
  match delete_item tbl (pk album_id).1 (pk album_id).2 with
  | (tbl', some it) => (tbl', .ok it)
  | (tbl', none) => (tbl', .error (.albumDoesNotExist album_id))

/-- `AlbumDynamo.transact_add_post`: builds the transaction step that adds one
to `postCount` and `rankCount`, conditioned on the album existing and on the
previously observed `rankCount` (equality when supplied, absence otherwise). -/
def transact_add_post (album_id : String) (old_rank_count : Option Int) (now : String) :
    UpdateOp :=
  let cond : Cond := match old_rank_count with
    | some rc => .and (.attrExists "partitionKey") (.eqNum "rankCount" rc)
    | none => .and (.attrExists "partitionKey") (.attrNotExists "rankCount")
  ⟨(pk album_id).1, (pk album_id).2,
   [.addNum "postCount" 1, .addNum "rankCount" 1, .setVal "postsLastUpdatedAt" (.str now)],
   cond⟩

/-- `AlbumDynamo.transact_remove_post`: builds the transaction step that
subtracts one from `postCount`, conditioned on the album existing and
`postCount > 0`. -/
def transact_remove_post (album_id : String) (now : String) : UpdateOp :=
  ⟨(pk album_id).1, (pk album_id).2,
   [.addNum "postCount" (-1), .setVal "postsLastUpdatedAt" (.str now)],
   .and (.attrExists "partitionKey") (.gtNum "postCount" 0)⟩

/-- `AlbumDynamo.transact_increment_rank_count`: builds the transaction step
that adds one to `rankCount`, conditioned on the album existing and
`rankCount` still equalling the previously observed value. -/
def transact_increment_rank_count (album_id : String) (old_rank_count : Int)
    (now : String) : UpdateOp :=
  ⟨(pk album_id).1, (pk album_id).2,
   [.addNum "rankCount" 1, .setVal "postsLastUpdatedAt" (.str now)],
   .and (.attrExists "partitionKey") (.eqNum "rankCount" old_rank_count)⟩

end AlbumDynamo

namespace FlagDynamo

/-- `FlagDynamo.pk`: the primary key of a flag relation record. -/
def pk (item_type item_id user_id : String) : String × String :=
  (item_type ++ "/" ++ item_id, "flag/" ++ user_id)

/-- `FlagDynamo.get`. -/
def get (tbl : Table) (item_type item_id user_id : String) : Option Item :=
  findItem tbl (pk item_type item_id user_id).1 (pk item_type item_id user_id).2

/-- The fresh flag record put by `add` (the `Item` of its `query_kwargs`). -/
def flag_item (item_type item_id user_id now : String) : Item :=
  ⟨(pk item_type item_id user_id).1, (pk item_type item_id user_id).2,
   [("schemaVersion", .num 0),
    ("gsiK1PartitionKey", .str ("flag/" ++ user_id)),
    ("gsiK1SortKey", .str item_type),
    ("createdAt", .str now)]⟩

/-- `FlagDynamo.add`: put-if-absent of a fresh flag record, with the raw
conditional-check failure translated to `AlreadyFlagged`. -/
def add (tbl : Table) (item_type item_id user_id now : String) :
    Table × Except DomainErr Item :=
  match add_item tbl (flag_item item_type item_id user_id now) with
  | (tbl', .ok it) => (tbl', .ok it)
  | (tbl', .error .conditionalCheckFailedException) =>
    (tbl', .error (.alreadyFlagged item_type item_id user_id))

/-- `FlagDynamo.delete`: delete, raising `NotFlagged` when nothing was
deleted. -/
def delete (tbl : Table) (item_type item_id user_id : String) :
    Table × Except DomainErr Unit :=
  match delete_item tbl (pk item_type item_id user_id).1 (pk item_type item_id user_id).2 with
  | (tbl', some _) => (tbl', .ok ())
  | (tbl', none) => (tbl', .error (.notFlagged item_type item_id user_id))

end FlagDynamo

/-! Pagination: the scan loop of `migrations/post_0_to_1.py`, which follows
`LastEvaluatedKey` / `ExclusiveStartKey` continuation tokens page after page.
The store serves raw pages of `psPred + 1` items (any positive page size) and
reports a continuation token exactly when items remain beyond the page; the
filter expression is applied to each page before it is yielded. -/

/-- Drain the scan starting from continuation token `start` (a position in the
raw table): one raw page of `psPred + 1` items is fetched and filtered, and
when the store reports a further token the loop continues from it. -/
def drainFrom (filt : Item → Bool) (psPred : Nat) (tbl : Table) (start : Nat) :
    List Item :=
  if start + (psPred + 1) < tbl.length then
    ((tbl.drop start).take (psPred + 1)).filter filt
      ++ drainFrom filt psPred tbl (start + (psPred + 1))
  else
    ((tbl.drop start).take (psPred + 1)).filter filt
termination_by tbl.length - start
decreasing_by omega

namespace Post0To1

/-- The scan's `FilterExpression`:
`begins_with(partitionKey, 'post/') and schemaVersion = version`. -/
def postScanFilter (version : Int) (it : Item) : Bool :=
  it.partitionKey.startsWith "post/" && (it.getNum "schemaVersion" == some version)

/-- `generate_all_posts`: the full drain of the filtered scan, following
continuation tokens from the start of the table until none is reported. -/
def generate_all_posts (version : Int) (psPred : Nat) (tbl : Table) : List Item :=
  drainFrom (postScanFilter version) psPred tbl 0

/-- `update_post_from_0_to_1`: conditional update denormalising
`postedBy.userId` into `postedByUserId`, bumping `schemaVersion` from 0 to 1
and removing `postedBy`; prints one progress line before the write and one
after it succeeds. -/
def update_post_from_0_to_1 (tbl : Table) (item : Item) :
    Table × List String × Except DynErr Item :=
  let op : UpdateOp :=
    ⟨item.partitionKey, item.sortKey,
     [.setFromMapField "postedByUserId" "postedBy" "userId",
      .setVal "schemaVersion" (.num 1),
      .remove "postedBy"],
     .and (.attrExists "partitionKey") (.eqNum "schemaVersion" 0)⟩
  let logStart := "Updating item: " ++ item.partitionKey ++ " ... "
  match runUpdateOp tbl op with
  | (tbl', .ok it') => (tbl', [logStart, "Done."], .ok it')
  | (tbl', .error e) => (tbl', [logStart], .error e)

/-- `main`: update every item yielded by `generate_all_posts 0`, accumulating
the writes and the progress log lines; a raised store error aborts the run. -/
def main (psPred : Nat) (tbl : Table) : Table × List String × Except DynErr Unit :=
  (generate_all_posts 0 psPred tbl).foldl
    (fun acc item =>
      match acc with
      | (tblA, logsA, .ok _) =>
        match update_post_from_0_to_1 tblA item with
        | (tbl', logs', .ok _) => (tbl', logsA ++ logs', .ok ())
        | (tbl', logs', .error e) => (tbl', logsA ++ logs', .error e)
      | (tblA, logsA, .error e) => (tblA, logsA, .error e))
    (tbl, [], .ok ())

end Post0To1

namespace User6To7

/-- Modelled from the spec: `migrations/user_6_to_7.py` is not in the snapshot
(only `migrations_tests/test_user_6_to_7.py` is).  Per spec section 4.4, the
migration's `dynamo_update_user(user_id, old_value, new_value)` sets the
derived `postArchivedCount` and bumps `schemaVersion` to 7 under a conditional
write requiring that the record exists and either still lacks the derived
field (`old_value = none`) or still holds exactly the previously observed
value; a conditional-check failure is promoted to the fatal per-record error
`"Update failed for user {user_id}"`, performing no write.  A zero count is
stored as an absent attribute, as the migration tests require. -/
def userUpdateCond (old_value : Option Int) : Cond :=
  match old_value with
  | none => .and (.attrExists "partitionKey") (.attrNotExists "postArchivedCount")
  | some v => .and (.attrExists "partitionKey") (.eqNum "postArchivedCount" v)

def userUpdateActions (new_value : Int) : List UpdateAction :=
  if new_value == 0 then
    [.setVal "schemaVersion" (.num 7), .remove "postArchivedCount"]
  else
    [.setVal "schemaVersion" (.num 7), .setVal "postArchivedCount" (.num new_value)]

def dynamo_update_user (tbl : Table) (user_id : String) (old_value : Option Int)
    (new_value : Int) : Table × Except String Item :=
  match runUpdateOp tbl
      ⟨"user/" ++ user_id, "profile", userUpdateActions new_value,
       userUpdateCond old_value⟩ with
  | (tbl', .ok it') => (tbl', .ok it')
  | (tbl', .error .conditionalCheckFailedException) =>
    (tbl', .error ("Update failed for user " ++ user_id))

/-- The stored derived counter still equals the value the migration runner
last observed for this user (`none` meaning it observed the attribute to be
absent); false as well when the user record does not exist. -/
def observedMatches (tbl : Table) (user_id : String) (old_value : Option Int) : Bool :=
  match findItem tbl ("user/" ++ user_id) "profile", old_value with
  | some it, none => (it.getAttr "postArchivedCount").isNone
  | some it, some v => it.getNum "postArchivedCount" == some v
  | none, _ => false

end User6To7

/-! ### Helper lemmas about the attribute-list and table primitives -/

theorem lookup_setAttrList_self (attrs : List (String × AttrVal)) (k : String) (v : AttrVal) :
    (setAttrList attrs k v).lookup k = some v := by
  induction attrs with
  | nil => simp [setAttrList, List.lookup]
  | cons p rest ih =>
    obtain ⟨k', v'⟩ := p
    by_cases h : k' = k
    · subst h
      simp [setAttrList, List.lookup]
    · have h1 : (k' == k) = false := beq_eq_false_iff_ne.mpr h
      have h2 : (k == k') = false := beq_eq_false_iff_ne.mpr (Ne.symm h)
      simp [setAttrList, List.lookup, h1, h2, ih]

theorem lookup_setAttrList_ne (attrs : List (String × AttrVal)) (k k' : String)
    (v : AttrVal) (h : k ≠ k') :
    (setAttrList attrs k v).lookup k' = attrs.lookup k' := by
  have hne : (k' == k) = false := beq_eq_false_iff_ne.mpr (Ne.symm h)
  induction attrs with
  | nil => simp [setAttrList, List.lookup, hne]
  | cons p rest ih =>
    obtain ⟨k'', v''⟩ := p
    by_cases h2 : k'' = k
    · subst h2
      simp [setAttrList, List.lookup, hne]
    · have h3 : (k'' == k) = false := beq_eq_false_iff_ne.mpr h2
      by_cases h4 : k' = k''
      · subst h4
        simp [setAttrList, List.lookup, h3]
      · have h5 : (k' == k'') = false := beq_eq_false_iff_ne.mpr h4
        simp [setAttrList, List.lookup, h3, h5, ih]

theorem lookup_removeAttrList_self (attrs : List (String × AttrVal)) (k : String) :
    (removeAttrList attrs k).lookup k = none := by
  induction attrs with
  | nil => simp [removeAttrList, List.lookup]
  | cons p rest ih =>
    obtain ⟨k', v'⟩ := p
    by_cases h : k' = k
    · subst h
      simpa [removeAttrList, List.filter] using ih
    · have h1 : (k' == k) = false := beq_eq_false_iff_ne.mpr h
      have h2 : (k == k') = false := beq_eq_false_iff_ne.mpr (Ne.symm h)
      simp only [removeAttrList, List.filter, h1, bne, Bool.not_false] at ih ⊢
      simp [List.lookup, h2, ih]

theorem lookup_removeAttrList_ne (attrs : List (String × AttrVal)) (k k' : String)
    (h : k ≠ k') :
    (removeAttrList attrs k).lookup k' = attrs.lookup k' := by
  induction attrs with
  | nil => simp [removeAttrList, List.lookup]
  | cons p rest ih =>
    obtain ⟨k'', v''⟩ := p
    by_cases h2 : k'' = k
    · subst h2
      have h3 : (k' == k'') = false := beq_eq_false_iff_ne.mpr (Ne.symm h)
      simp only [removeAttrList, List.filter, beq_self_eq_true, bne_self_eq_false] at ih ⊢
      simp [List.lookup, h3, ih]
    · have h3 : (k'' == k) = false := beq_eq_false_iff_ne.mpr h2
      by_cases h4 : k' = k''
      · subst h4
        simp only [removeAttrList, List.filter, h3, bne, Bool.not_false] at ih ⊢
        simp [List.lookup]
      · have h5 : (k' == k'') = false := beq_eq_false_iff_ne.mpr h4
        simp only [removeAttrList, List.filter, h3, bne, Bool.not_false] at ih ⊢
        simp [List.lookup, h5, ih]

theorem findItem_append (t1 t2 : Table) (pk sk : String) :
    findItem (t1 ++ t2) pk sk = (findItem t1 pk sk).or (findItem t2 pk sk) :=
  List.find?_append ..

theorem findItem_replaceItem (tbl : Table) (pk sk : String) (it' : Item)
    (h1 : (it'.partitionKey == pk) = true) (h2 : (it'.sortKey == sk) = true) :
    (findItem tbl pk sk).isSome = true →
    findItem (replaceItem tbl pk sk it') pk sk = some it' := by
  induction tbl with
  | nil => simp [findItem]
  | cons a rest ih =>
    intro hex
    by_cases h : (a.partitionKey == pk && a.sortKey == sk) = true
    · simp [findItem, replaceItem, List.find?, h, h1, h2]
    · simp only [Bool.not_eq_true] at h
      have hfa : (if (a.partitionKey == pk && a.sortKey == sk) = true then it' else a) = a := by
        rw [h]
        simp
      rw [findItem, replaceItem, List.map, hfa,
        List.find?_cons_of_neg _ (by simp [h])]
      rw [findItem, List.find?_cons_of_neg _ (by simp [h])] at hex
      exact ih hex

theorem findItem_removeItem (tbl : Table) (pk sk : String) :
    findItem (removeItem tbl pk sk) pk sk = none := by
  apply List.find?_eq_none.mpr
  intro x hx
  have hm := (List.mem_filter.mp hx).2
  simp only [Bool.not_eq_true'] at hm
  simp [hm]

theorem drainFrom_eq_filter (filt : Item → Bool) (psPred : Nat) (tbl : Table)
    (start : Nat) :
    drainFrom filt psPred tbl start = (tbl.drop start).filter filt := by
  rw [drainFrom]
  by_cases h : start + (psPred + 1) < tbl.length
  · rw [if_pos h, drainFrom_eq_filter filt psPred tbl (start + (psPred + 1))]
    have h1 : tbl.drop (start + (psPred + 1)) = (tbl.drop start).drop (psPred + 1) := by
      rw [List.drop_drop]
    rw [h1, ← List.filter_append, List.take_append_drop]
  · rw [if_neg h]
    have hlen : (tbl.drop start).length ≤ psPred + 1 := by
      simp only [List.length_drop]
      omega
    rw [List.take_of_length_le hlen]
termination_by tbl.length - start
decreasing_by omega

theorem getAttr_eq_lookup (it : Item) (a : String)
    (h1 : a ≠ "partitionKey") (h2 : a ≠ "sortKey") :
    it.getAttr a = it.attrs.lookup a := by
  simp [Item.getAttr, beq_eq_false_iff_ne.mpr h1, beq_eq_false_iff_ne.mpr h2]

theorem mem_replaceItem (tbl : Table) (pk sk : String) (it' x : Item)
    (hx : x ∈ replaceItem tbl pk sk it') : x = it' ∨ x ∈ tbl := by
  rw [replaceItem] at hx
  obtain ⟨a, ha, hfa⟩ := List.mem_map.mp hx
  by_cases h : (a.partitionKey == pk && a.sortKey == sk) = true
  · left
    rw [← hfa]
    simp [h]
  · right
    simp only [Bool.not_eq_true] at h
    rw [← hfa]
    simp [h]
    exact ha

theorem runUpdateOp_cases (tbl : Table) (op : UpdateOp) :
    (evalCond (findItem tbl op.keyPk op.keySk) op.cond = false ∧
      runUpdateOp tbl op = (tbl, .error .conditionalCheckFailedException)) ∨
    (∃ it, evalCond (findItem tbl op.keyPk op.keySk) op.cond = true ∧
      findItem tbl op.keyPk op.keySk = some it ∧
      runUpdateOp tbl op = (replaceItem tbl op.keyPk op.keySk
          ⟨it.partitionKey, it.sortKey, op.actions.foldl applyAction it.attrs⟩,
        .ok ⟨it.partitionKey, it.sortKey, op.actions.foldl applyAction it.attrs⟩)) ∨
    (evalCond (findItem tbl op.keyPk op.keySk) op.cond = true ∧
      findItem tbl op.keyPk op.keySk = none ∧
      runUpdateOp tbl op = (tbl ++ [⟨op.keyPk, op.keySk, op.actions.foldl applyAction []⟩],
        .ok ⟨op.keyPk, op.keySk, op.actions.foldl applyAction []⟩)) := by
  by_cases hcond : evalCond (findItem tbl op.keyPk op.keySk) op.cond = true
  · cases hfind : findItem tbl op.keyPk op.keySk with
    | some it =>
      refine .inr (.inl ⟨it, hfind ▸ hcond, rfl, ?_⟩)
      rw [runUpdateOp]
      simp only [hfind] at hcond ⊢
      rw [if_pos hcond]
    | none =>
      refine .inr (.inr ⟨hfind ▸ hcond, rfl, ?_⟩)
      rw [runUpdateOp]
      simp only [hfind] at hcond ⊢
      rw [if_pos hcond]
  · simp only [Bool.not_eq_true] at hcond
    refine .inl ⟨hcond, ?_⟩
    rw [runUpdateOp]
    simp only [hcond]
    rfl

/-! ### Claims -/

/-- C8: Pagination completeness.  For every table state and every positive
store page size, fully draining the lazy scan of `generate_all_posts` —
following the continuation tokens page after page until the store reports no
further one — yields exactly the records matching the access-pattern filter
(`begins_with(partitionKey, 'post/') and schemaVersion = version`), in table
order. -/
theorem generate_all_posts_complete (version : Int) (psPred : Nat) (tbl : Table) :
    Post0To1.generate_all_posts version psPred tbl
      = tbl.filter (Post0To1.postScanFilter version) := by
  rw [Post0To1.generate_all_posts, drainFrom_eq_filter, List.drop_zero]

/-- C2: Migration idempotence.  The scan of `migrations/post_0_to_1.py` yields
only records whose `schemaVersion` exactly equals the version being migrated
from; and on any table in which no record has `schemaVersion = 0` (the version
this migration migrates from), running the migration performs zero writes,
leaves every record unchanged, and emits zero progress log lines. -/
theorem migration_idempotent (psPred : Nat) (tbl : Table)
    (h : ∀ it ∈ tbl, ¬ it.getNum "schemaVersion" = some 0) :
    (∀ version : Int, ∀ it ∈ Post0To1.generate_all_posts version psPred tbl,
        it.getNum "schemaVersion" = some version) ∧
    Post0To1.main psPred tbl = (tbl, [], .ok ()) := by
  constructor
  · intro version it hit
    rw [generate_all_posts_complete] at hit
    have hf := (List.mem_filter.mp hit).2
    simp only [Post0To1.postScanFilter, Bool.and_eq_true, beq_iff_eq] at hf
    exact hf.2
  · have hnil : Post0To1.generate_all_posts 0 psPred tbl = [] := by
      rw [generate_all_posts_complete, List.filter_eq_nil_iff]
      intro it hit
      simp only [Post0To1.postScanFilter, Bool.and_eq_true, beq_iff_eq, not_and]
      intro _
      exact h it hit
    rw [Post0To1.main, hnil]
    rfl

/-- A table whose only post record is already at schema version 1, used to
evaluate the migration claims on a concrete input. -/
def alreadyMigratedTbl : Table :=
  [⟨"post/p1", "-", [("schemaVersion", .num 1), ("postedByUserId", .str "u1")]⟩]

/-- Witness for C2: on a concrete table with no version-0 record the migration
run writes nothing and logs nothing. -/
theorem migration_idempotent_witness :
    Post0To1.main 24 alreadyMigratedTbl = (alreadyMigratedTbl, [], .ok ()) :=
  (migration_idempotent 24 alreadyMigratedTbl (by decide)).2

theorem evalCond_userUpdateCond (tbl : Table) (user_id : String)
    (old_value : Option Int) :
    evalCond (findItem tbl ("user/" ++ user_id) "profile")
        (User6To7.userUpdateCond old_value)
      = User6To7.observedMatches tbl user_id old_value := by
  cases hfind : findItem tbl ("user/" ++ user_id) "profile" with
  | none =>
    cases old_value <;>
      simp [evalCond, User6To7.userUpdateCond, User6To7.observedMatches, hfind]
  | some it =>
    cases old_value with
    | none =>
      simp [evalCond, User6To7.userUpdateCond, User6To7.observedMatches, hfind,
        Item.getAttr]
    | some v =>
      simp [evalCond, User6To7.userUpdateCond, User6To7.observedMatches, hfind,
        Item.getAttr]

/-- C1: Migration race detection.  When the stored `postArchivedCount` of a
user record no longer matches the value the migration runner last observed
(`observedMatches` false), `dynamo_update_user` raises the fatal per-record
error `"Update failed for user {id}"` and leaves the table unchanged — the
concurrently-changed value is not overwritten; when the stored value still
equals the expected old value, the conditional update succeeds without
error. -/
theorem dynamo_update_user_race_detection (tbl : Table) (user_id : String)
    (old_value : Option Int) (new_value : Int) :
    (User6To7.observedMatches tbl user_id old_value = false →
      User6To7.dynamo_update_user tbl user_id old_value new_value
        = (tbl, .error ("Update failed for user " ++ user_id))) ∧
    (User6To7.observedMatches tbl user_id old_value = true →
      ∃ tbl' it', User6To7.dynamo_update_user tbl user_id old_value new_value
        = (tbl', .ok it')) := by
  have hc := evalCond_userUpdateCond tbl user_id old_value
  constructor
  · intro hm
    rw [User6To7.dynamo_update_user, runUpdateOp]
    simp only [hc, hm]
    rfl
  · intro hm
    rw [User6To7.dynamo_update_user, runUpdateOp]
    simp only [hc, hm, if_true]
    cases hfind : findItem tbl ("user/" ++ user_id) "profile" with
    | none =>
      simp [User6To7.observedMatches, hfind] at hm
    | some it => exact ⟨_, _, rfl⟩

/-- The table of the migration race test: one user at schema version 6 whose
stored `postArchivedCount` is 2. -/
def raceUserTbl : Table :=
  [⟨"user/u1", "profile",
    [("schemaVersion", .num 6), ("userId", .str "u1"), ("postArchivedCount", .num 2)]⟩]

/-- Witness for C1: with stored count 2, expecting old value 0 fails with the
fatal error and writes nothing, while expecting old value 2 succeeds. -/
theorem dynamo_update_user_race_detection_witness :
    (User6To7.dynamo_update_user raceUserTbl "u1" (some 0) 2
      = (raceUserTbl, .error ("Update failed for user " ++ "u1"))) ∧
    (∃ tbl' it', User6To7.dynamo_update_user raceUserTbl "u1" (some 2) 2
      = (tbl', .ok it')) :=
  ⟨(dynamo_update_user_race_detection raceUserTbl "u1" (some 0) 2).1 (by decide),
   (dynamo_update_user_race_detection raceUserTbl "u1" (some 2) 2).2 (by decide)⟩

/-- True when the album record exists and its `postCount` is a positive
number. -/
def postCountPos (tbl : Table) (album_id : String) : Bool :=
  match AlbumDynamo.get_album tbl album_id with
  | some it =>
    match it.getNum "postCount" with
    | some n => decide (0 < n)
    | none => false
  | none => false

/-- The item's `postCount`, when it is a number, is non-negative. -/
def postCountNonneg (it : Item) : Bool :=
  match it.getNum "postCount" with
  | some n => decide (0 ≤ n)
  | none => Bool.true

/-- C3: Counter non-negativity on decrement.  The transaction step built by
`transact_remove_post` decrements `postCount` only under the condition that
the album record exists and `postCount > 0`; committing it against a state
where the record is absent or `postCount` is not positive fails the condition
and performs no write, and committing it in any state preserves
non-negativity of every stored `postCount`. -/
theorem transact_remove_post_no_negative (tbl : Table) (album_id now : String) :
    (AlbumDynamo.transact_remove_post album_id now).cond
      = .and (.attrExists "partitionKey") (.gtNum "postCount" 0) ∧
    (postCountPos tbl album_id = false →
      runUpdateOp tbl (AlbumDynamo.transact_remove_post album_id now)
        = (tbl, .error .conditionalCheckFailedException)) ∧
    (∀ tbl' r, runUpdateOp tbl (AlbumDynamo.transact_remove_post album_id now) = (tbl', r) →
      (∀ it ∈ tbl, postCountNonneg it = true) →
      ∀ it' ∈ tbl', postCountNonneg it' = true) := by
  have hpc : ("postCount" : String) ≠ "partitionKey" := by decide
  have hsc : ("postCount" : String) ≠ "sortKey" := by decide
  refine ⟨rfl, ?_, ?_⟩
  · intro h
    rcases runUpdateOp_cases tbl (AlbumDynamo.transact_remove_post album_id now) with
      ⟨-, hrun⟩ | ⟨it, hc, hfind, -⟩ | ⟨hc, hfind, -⟩
    · exact hrun
    · exfalso
      simp only [AlbumDynamo.transact_remove_post] at hc hfind
      simp only [postCountPos, AlbumDynamo.get_album, hfind] at h
      rw [hfind] at hc
      simp only [evalCond, Bool.and_eq_true] at hc
      obtain ⟨-, hgt⟩ := hc
      cases hnum : it.getNum "postCount" with
      | none =>
        rw [hnum] at hgt
        simp at hgt
      | some n =>
        rw [hnum] at hgt h
        simp only [decide_eq_true_eq] at hgt
        simp only [decide_eq_false_iff_not] at h
        exact h hgt
    · exfalso
      simp only [AlbumDynamo.transact_remove_post] at hc hfind
      rw [hfind] at hc
      simp [evalCond] at hc
  · intro tbl' r heq hinv it' hit'
    rcases runUpdateOp_cases tbl (AlbumDynamo.transact_remove_post album_id now) with
      ⟨-, hrun⟩ | ⟨it, hc, hfind, hrun⟩ | ⟨hc, hfind, -⟩
    · have hpair := hrun.symm.trans heq
      have htbl : tbl = tbl' := congrArg Prod.fst hpair
      exact hinv it' (htbl ▸ hit')
    · have hpair := hrun.symm.trans heq
      have htbl : tbl' = replaceItem tbl
          (AlbumDynamo.transact_remove_post album_id now).keyPk
          (AlbumDynamo.transact_remove_post album_id now).keySk
          ⟨it.partitionKey, it.sortKey,
           (AlbumDynamo.transact_remove_post album_id now).actions.foldl applyAction it.attrs⟩ :=
        (congrArg Prod.fst hpair).symm
      have hgt : ∃ n, it.getNum "postCount" = some n ∧ 0 < n := by
        simp only [AlbumDynamo.transact_remove_post] at hc hfind
        rw [hfind] at hc
        simp only [evalCond, Bool.and_eq_true] at hc
        obtain ⟨-, hgt⟩ := hc
        cases hnum : it.getNum "postCount" with
        | none =>
          rw [hnum] at hgt
          simp at hgt
        | some n =>
          rw [hnum] at hgt
          exact ⟨n, rfl, by simpa using hgt⟩
      obtain ⟨n, hn, hnpos⟩ := hgt
      rcases mem_replaceItem _ _ _ _ _ (htbl ▸ hit') with hnew | hold
      · subst hnew
        have hlk : it.attrs.lookup "postCount" = some (.num n) := by
          rw [← getAttr_eq_lookup it "postCount" hpc hsc]
          simp only [Item.getNum] at hn
          cases hga : it.getAttr "postCount" with
          | none =>
            rw [hga] at hn
            simp at hn
          | some v =>
            rw [hga] at hn
            cases v with
            | num m =>
              simp only [Option.some.injEq] at hn
              rw [hn]
            | str s => simp at hn
            | map m => simp at hn
        simp only [AlbumDynamo.transact_remove_post, List.foldl, applyAction, hlk]
        simp only [postCountNonneg, Item.getNum, getAttr_eq_lookup _ "postCount" hpc hsc]
        rw [lookup_setAttrList_ne _ "postsLastUpdatedAt" "postCount" _ (by decide),
          lookup_setAttrList_self]
        simp only [decide_eq_true_eq]
        omega
      · exact hinv it' hold
    · exfalso
      simp only [AlbumDynamo.transact_remove_post] at hc hfind
      rw [hfind] at hc
      simp [evalCond] at hc

/-- A concrete album record with `postCount = 0`. -/
def zeroPostAlbumTbl : Table :=
  [⟨"album/a1", "-",
    [("schemaVersion", .num 0), ("albumId", .str "a1"), ("ownedByUserId", .str "u1"),
     ("name", .str "first"), ("postCount", .num 0)]⟩]

/-- Witness for C3: committing the remove-post step when `postCount = 0` fails
the condition and performs no write. -/
theorem transact_remove_post_no_negative_witness :
    runUpdateOp zeroPostAlbumTbl
        (AlbumDynamo.transact_remove_post "a1" "2020-01-01T00:00:00Z")
      = (zeroPostAlbumTbl, .error .conditionalCheckFailedException) :=
  (transact_remove_post_no_negative zeroPostAlbumTbl "a1" "2020-01-01T00:00:00Z").2.1
    (by decide)

theorem findItem_some_key (tbl : Table) (pk sk : String) (it : Item)
    (h : findItem tbl pk sk = some it) :
    (it.partitionKey == pk) = true ∧ (it.sortKey == sk) = true := by
  have := List.find?_some h
  simpa [Bool.and_eq_true] using this

/-- C4: Optimistic rank-count condition.  The step built by
`transact_add_post` requires the album record to exist and, when
`old_rank_count` is supplied, embeds the equality condition
`rankCount = old_rank_count`; when it is `none` it instead requires the
`rankCount` attribute to be absent, and committing this step against an album
with `postCount` and `rankCount` undefined atomically sets `postCount = 1` and
`rankCount = 1`.  `transact_increment_rank_count` embeds the same equality
condition. -/
theorem transact_add_post_optimistic (tbl : Table) (album_id now : String) (rc : Int) :
    (AlbumDynamo.transact_add_post album_id (some rc) now).cond
      = .and (.attrExists "partitionKey") (.eqNum "rankCount" rc) ∧
    (AlbumDynamo.transact_add_post album_id none now).cond
      = .and (.attrExists "partitionKey") (.attrNotExists "rankCount") ∧
    (AlbumDynamo.transact_increment_rank_count album_id rc now).cond
      = .and (.attrExists "partitionKey") (.eqNum "rankCount" rc) ∧
    (∀ it, AlbumDynamo.get_album tbl album_id = some it →
      it.getAttr "postCount" = none →
      it.getAttr "rankCount" = none →
      ∃ it', runUpdateOp tbl (AlbumDynamo.transact_add_post album_id none now)
          = (replaceItem tbl (AlbumDynamo.pk album_id).1 (AlbumDynamo.pk album_id).2 it',
             .ok it') ∧
        it'.getNum "postCount" = some 1 ∧ it'.getNum "rankCount" = some 1 ∧
        AlbumDynamo.get_album
          (runUpdateOp tbl (AlbumDynamo.transact_add_post album_id none now)).1 album_id
          = some it') := by
  have hpcK : ("postCount" : String) ≠ "partitionKey" := by decide
  have hpcS : ("postCount" : String) ≠ "sortKey" := by decide
  have hrcK : ("rankCount" : String) ≠ "partitionKey" := by decide
  have hrcS : ("rankCount" : String) ≠ "sortKey" := by decide
  refine ⟨rfl, rfl, rfl, ?_⟩
  intro it hget hpcn hrcn
  rcases runUpdateOp_cases tbl (AlbumDynamo.transact_add_post album_id none now) with
    ⟨hc, -⟩ | ⟨it0, -, hfind, hrun⟩ | ⟨-, hfind, -⟩
  · exfalso
    simp only [AlbumDynamo.transact_add_post] at hc
    rw [show findItem tbl (AlbumDynamo.pk album_id).1 (AlbumDynamo.pk album_id).2
        = some it from hget] at hc
    simp only [evalCond] at hc
    rw [hrcn] at hc
    simp [Item.getAttr] at hc
  · have hfind' : findItem tbl (AlbumDynamo.pk album_id).1 (AlbumDynamo.pk album_id).2
        = some it0 := hfind
    have hit0 : it0 = it :=
      Option.some.inj (hfind'.symm.trans hget)
    subst hit0
    have l1 : it0.attrs.lookup "postCount" = none := by
      rw [← getAttr_eq_lookup it0 _ hpcK hpcS]
      exact hpcn
    have l2 : (setAttrList it0.attrs "postCount" (.num 1)).lookup "rankCount" = none := by
      rw [lookup_setAttrList_ne _ _ _ _ (by decide),
        ← getAttr_eq_lookup it0 _ hrcK hrcS]
      exact hrcn
    have ha : (AlbumDynamo.transact_add_post album_id none now).actions.foldl
          applyAction it0.attrs
        = setAttrList (setAttrList (setAttrList it0.attrs "postCount" (.num 1))
            "rankCount" (.num 1)) "postsLastUpdatedAt" (.str now) := by
      simp only [AlbumDynamo.transact_add_post, List.foldl, applyAction, l1, l2]
    refine ⟨⟨it0.partitionKey, it0.sortKey,
      (AlbumDynamo.transact_add_post album_id none now).actions.foldl applyAction it0.attrs⟩,
      hrun, ?_, ?_, ?_⟩
    · show Item.getNum _ "postCount" = some 1
      have hl : ((AlbumDynamo.transact_add_post album_id none now).actions.foldl
            applyAction it0.attrs).lookup "postCount" = some (.num 1) := by
        rw [ha, lookup_setAttrList_ne _ _ _ _ (by decide),
          lookup_setAttrList_ne _ _ _ _ (by decide), lookup_setAttrList_self]
      simp [Item.getNum, getAttr_eq_lookup _ "postCount" hpcK hpcS, hl]
    · show Item.getNum _ "rankCount" = some 1
      have hl : ((AlbumDynamo.transact_add_post album_id none now).actions.foldl
            applyAction it0.attrs).lookup "rankCount" = some (.num 1) := by
        rw [ha, lookup_setAttrList_ne _ _ _ _ (by decide), lookup_setAttrList_self]
      simp [Item.getNum, getAttr_eq_lookup _ "rankCount" hrcK hrcS, hl]
    · rw [AlbumDynamo.get_album, hrun]
      exact findItem_replaceItem tbl (AlbumDynamo.pk album_id).1 (AlbumDynamo.pk album_id).2 _
        (findItem_some_key _ _ _ _ hfind').1 (findItem_some_key _ _ _ _ hfind').2
        (by rw [hfind']; rfl)
  · exfalso
    rw [AlbumDynamo.get_album] at hget
    have hfind' : findItem tbl (AlbumDynamo.pk album_id).1 (AlbumDynamo.pk album_id).2
        = none := hfind
    rw [hfind'] at hget
    exact Option.noConfusion hget

/-- A concrete album record with `postCount` and `rankCount` undefined. -/
def freshAlbumTbl : Table :=
  [⟨"album/a2", "-",
    [("schemaVersion", .num 0), ("albumId", .str "a2"), ("ownedByUserId", .str "u1"),
     ("name", .str "second")]⟩]

/-- Witness for C4: committing the add-post step with no prior rank count
against an album with both counters undefined sets `postCount = 1` and
`rankCount = 1`. -/
theorem transact_add_post_optimistic_witness :
    ∃ it', runUpdateOp freshAlbumTbl
        (AlbumDynamo.transact_add_post "a2" none "2020-01-01T00:00:00Z")
        = (replaceItem freshAlbumTbl (AlbumDynamo.pk "a2").1 (AlbumDynamo.pk "a2").2 it',
           .ok it') ∧
      it'.getNum "postCount" = some 1 ∧ it'.getNum "rankCount" = some 1 ∧
      AlbumDynamo.get_album
        (runUpdateOp freshAlbumTbl
          (AlbumDynamo.transact_add_post "a2" none "2020-01-01T00:00:00Z")).1 "a2"
        = some it' :=
  (transact_add_post_optimistic freshAlbumTbl "a2" "2020-01-01T00:00:00Z" 0).2.2.2
    ⟨"album/a2", "-",
     [("schemaVersion", .num 0), ("albumId", .str "a2"), ("ownedByUserId", .str "u1"),
      ("name", .str "second")]⟩ rfl rfl rfl

theorem add_item_absent (tbl : Table) (it : Item)
    (h : findItem tbl it.partitionKey it.sortKey = none) :
    add_item tbl it = (tbl ++ [it], .ok it) := by
  rw [add_item, h]
  rfl

theorem add_item_present (tbl : Table) (it : Item)
    (h : (findItem tbl it.partitionKey it.sortKey).isSome = true) :
    add_item tbl it = (tbl, .error .conditionalCheckFailedException) := by
  rw [add_item, if_pos h]

theorem findItem_singleton_self (it : Item) (pk sk : String)
    (h1 : it.partitionKey = pk) (h2 : it.sortKey = sk) :
    findItem [it] pk sk = some it := by
  subst h1
  subst h2
  simp [findItem, List.find?]

/-- C5: Create uniqueness.  Starting from a table without the album key and
without the flag key, the first `add_album` / `FlagDynamo.add` inserts the
record; a second add with the same key returns the typed domain error
(`AlbumAlreadyExists` / `AlreadyFlagged`) — translated from the store's
conditional-check failure, as the `Except DomainErr` result type shows — and
leaves the table, hence the first record, unmodified. -/
theorem add_twice_already_exists (tbl : Table)
    (album_id user_id name created_at user_id2 name2 created_at2 : String)
    (description description2 : Option String)
    (item_type item_id fuser_id fnow fnow2 : String)
    (hA : AlbumDynamo.get_album tbl album_id = none)
    (hF : FlagDynamo.get tbl item_type item_id fuser_id = none) :
    (∃ tbl1 it1,
      AlbumDynamo.add_album tbl album_id user_id name description created_at
        = (tbl1, .ok it1) ∧
      AlbumDynamo.get_album tbl1 album_id = some it1 ∧
      AlbumDynamo.add_album tbl1 album_id user_id2 name2 description2 created_at2
        = (tbl1, .error (.albumAlreadyExists album_id)) ∧
      AlbumDynamo.get_album tbl1 album_id = some it1) ∧
    (∃ tbl1 it1,
      FlagDynamo.add tbl item_type item_id fuser_id fnow = (tbl1, .ok it1) ∧
      FlagDynamo.get tbl1 item_type item_id fuser_id = some it1 ∧
      FlagDynamo.add tbl1 item_type item_id fuser_id fnow2
        = (tbl1, .error (.alreadyFlagged item_type item_id fuser_id)) ∧
      FlagDynamo.get tbl1 item_type item_id fuser_id = some it1) := by
  constructor
  · have hA' : findItem tbl
        (AlbumDynamo.album_item album_id user_id name description created_at).partitionKey
        (AlbumDynamo.album_item album_id user_id name description created_at).sortKey
        = none := hA
    have hA0 : findItem tbl (AlbumDynamo.pk album_id).1 (AlbumDynamo.pk album_id).2
        = none := hA
    have hget1 : AlbumDynamo.get_album
        (tbl ++ [AlbumDynamo.album_item album_id user_id name description created_at])
        album_id
        = some (AlbumDynamo.album_item album_id user_id name description created_at) := by
      rw [AlbumDynamo.get_album, findItem_append, hA0,
        findItem_singleton_self
          (AlbumDynamo.album_item album_id user_id name description created_at)
          (AlbumDynamo.pk album_id).1 (AlbumDynamo.pk album_id).2 rfl rfl]
      rfl
    refine ⟨tbl ++ [AlbumDynamo.album_item album_id user_id name description created_at],
      AlbumDynamo.album_item album_id user_id name description created_at,
      ?_, hget1, ?_, hget1⟩
    · rw [AlbumDynamo.add_album, add_item_absent tbl _ hA']
    · have hfound : (findItem
          (tbl ++ [AlbumDynamo.album_item album_id user_id name description created_at])
          (AlbumDynamo.album_item album_id user_id2 name2 description2 created_at2).partitionKey
          (AlbumDynamo.album_item album_id user_id2 name2 description2 created_at2).sortKey).isSome
          = true := by
        show (findItem _ (AlbumDynamo.pk album_id).1 (AlbumDynamo.pk album_id).2).isSome = true
        rw [findItem_append, hA0, findItem_singleton_self
          (AlbumDynamo.album_item album_id user_id name description created_at)
          (AlbumDynamo.pk album_id).1 (AlbumDynamo.pk album_id).2 rfl rfl]
        rfl
      rw [AlbumDynamo.add_album, add_item_present _ _ hfound]
  · have hF' : findItem tbl
        (FlagDynamo.flag_item item_type item_id fuser_id fnow).partitionKey
        (FlagDynamo.flag_item item_type item_id fuser_id fnow).sortKey
        = none := hF
    have hF0 : findItem tbl (FlagDynamo.pk item_type item_id fuser_id).1
        (FlagDynamo.pk item_type item_id fuser_id).2 = none := hF
    have hget1 : FlagDynamo.get
        (tbl ++ [FlagDynamo.flag_item item_type item_id fuser_id fnow])
        item_type item_id fuser_id
        = some (FlagDynamo.flag_item item_type item_id fuser_id fnow) := by
      rw [FlagDynamo.get, findItem_append, hF0,
        findItem_singleton_self (FlagDynamo.flag_item item_type item_id fuser_id fnow)
          (FlagDynamo.pk item_type item_id fuser_id).1
          (FlagDynamo.pk item_type item_id fuser_id).2 rfl rfl]
      rfl
    refine ⟨tbl ++ [FlagDynamo.flag_item item_type item_id fuser_id fnow],
      FlagDynamo.flag_item item_type item_id fuser_id fnow,
      ?_, hget1, ?_, hget1⟩
    · rw [FlagDynamo.add, add_item_absent tbl _ hF']
    · have hfound : (findItem
          (tbl ++ [FlagDynamo.flag_item item_type item_id fuser_id fnow])
          (FlagDynamo.flag_item item_type item_id fuser_id fnow2).partitionKey
          (FlagDynamo.flag_item item_type item_id fuser_id fnow2).sortKey).isSome
          = true := by
        show (findItem _ (FlagDynamo.pk item_type item_id fuser_id).1
          (FlagDynamo.pk item_type item_id fuser_id).2).isSome = true
        rw [findItem_append, hF0,
          findItem_singleton_self (FlagDynamo.flag_item item_type item_id fuser_id fnow)
            (FlagDynamo.pk item_type item_id fuser_id).1
            (FlagDynamo.pk item_type item_id fuser_id).2 rfl rfl]
        rfl
      rw [FlagDynamo.add, add_item_present _ _ hfound]

/-- Witness for C5 on the empty table: a first album add and flag add
succeed, and repeating each with the same key yields the typed
already-exists errors with the table unchanged. -/
theorem add_twice_already_exists_witness :
    (∃ tbl1 it1,
      AlbumDynamo.add_album [] "a1" "u1" "n" none "t0" = (tbl1, .ok it1) ∧
      AlbumDynamo.get_album tbl1 "a1" = some it1 ∧
      AlbumDynamo.add_album tbl1 "a1" "u2" "n2" none "t1"
        = (tbl1, .error (.albumAlreadyExists "a1")) ∧
      AlbumDynamo.get_album tbl1 "a1" = some it1) ∧
    (∃ tbl1 it1,
      FlagDynamo.add [] "post" "p1" "u1" "t0" = (tbl1, .ok it1) ∧
      FlagDynamo.get tbl1 "post" "p1" "u1" = some it1 ∧
      FlagDynamo.add tbl1 "post" "p1" "u1" "t1"
        = (tbl1, .error (.alreadyFlagged "post" "p1" "u1")) ∧
      FlagDynamo.get tbl1 "post" "p1" "u1" = some it1) :=
  add_twice_already_exists [] "a1" "u1" "n" "t0" "u2" "n2" "t1" none none
    "post" "p1" "u1" "t0" "t1" rfl rfl

theorem runUpdateOp_cond_false (tbl : Table) (op : UpdateOp)
    (h : evalCond (findItem tbl op.keyPk op.keySk) op.cond = false) :
    runUpdateOp tbl op = (tbl, .error .conditionalCheckFailedException) := by
  rw [runUpdateOp]
  simp only [h]
  rfl

theorem delete_album_absent (tbl : Table) (album_id : String)
    (h : AlbumDynamo.get_album tbl album_id = none) :
    AlbumDynamo.delete_album tbl album_id
      = (tbl, .error (.albumDoesNotExist album_id)) := by
  have h' : findItem tbl (AlbumDynamo.pk album_id).1 (AlbumDynamo.pk album_id).2
      = none := h
  rw [AlbumDynamo.delete_album, delete_item, h']

theorem delete_album_present (tbl : Table) (album_id : String) (it : Item)
    (h : AlbumDynamo.get_album tbl album_id = some it) :
    AlbumDynamo.delete_album tbl album_id
      = (removeItem tbl (AlbumDynamo.pk album_id).1 (AlbumDynamo.pk album_id).2, .ok it) := by
  have h' : findItem tbl (AlbumDynamo.pk album_id).1 (AlbumDynamo.pk album_id).2
      = some it := h
  rw [AlbumDynamo.delete_album, delete_item, h']

theorem flag_delete_absent (tbl : Table) (item_type item_id user_id : String)
    (h : FlagDynamo.get tbl item_type item_id user_id = none) :
    FlagDynamo.delete tbl item_type item_id user_id
      = (tbl, .error (.notFlagged item_type item_id user_id)) := by
  have h' : findItem tbl (FlagDynamo.pk item_type item_id user_id).1
      (FlagDynamo.pk item_type item_id user_id).2 = none := h
  rw [FlagDynamo.delete, delete_item, h']

theorem flag_delete_present (tbl : Table) (item_type item_id user_id : String) (it : Item)
    (h : FlagDynamo.get tbl item_type item_id user_id = some it) :
    FlagDynamo.delete tbl item_type item_id user_id
      = (removeItem tbl (FlagDynamo.pk item_type item_id user_id).1
          (FlagDynamo.pk item_type item_id user_id).2, .ok ()) := by
  have h' : findItem tbl (FlagDynamo.pk item_type item_id user_id).1
      (FlagDynamo.pk item_type item_id user_id).2 = some it := h
  rw [FlagDynamo.delete, delete_item, h']

/-- C6: Delete raises-iff-absent.  `delete_album` returns the typed
`AlbumDoesNotExist` error (with the table untouched) exactly when the album
key is absent, and when the key exists it removes the record so that a
subsequent get returns nothing; `FlagDynamo.delete` behaves the same with
`NotFlagged`. -/
theorem delete_raises_iff_absent (tbl : Table)
    (album_id item_type item_id user_id : String) :
    (AlbumDynamo.get_album tbl album_id = none ↔
      AlbumDynamo.delete_album tbl album_id
        = (tbl, .error (.albumDoesNotExist album_id))) ∧
    (∀ it, AlbumDynamo.get_album tbl album_id = some it →
      (AlbumDynamo.delete_album tbl album_id).2 = .ok it ∧
      AlbumDynamo.get_album (AlbumDynamo.delete_album tbl album_id).1 album_id = none) ∧
    (FlagDynamo.get tbl item_type item_id user_id = none ↔
      FlagDynamo.delete tbl item_type item_id user_id
        = (tbl, .error (.notFlagged item_type item_id user_id))) ∧
    (∀ it, FlagDynamo.get tbl item_type item_id user_id = some it →
      (FlagDynamo.delete tbl item_type item_id user_id).2 = .ok () ∧
      FlagDynamo.get (FlagDynamo.delete tbl item_type item_id user_id).1
        item_type item_id user_id = none) := by
  refine ⟨⟨delete_album_absent tbl album_id, ?_⟩, ?_, ⟨flag_delete_absent tbl _ _ _, ?_⟩, ?_⟩
  · intro h
    cases hfind : AlbumDynamo.get_album tbl album_id with
    | none => rfl
    | some it =>
      rw [delete_album_present tbl album_id it hfind] at h
      simp at h
  · intro it h
    rw [delete_album_present tbl album_id it h]
    exact ⟨rfl, findItem_removeItem tbl _ _⟩
  · intro h
    cases hfind : FlagDynamo.get tbl item_type item_id user_id with
    | none => rfl
    | some it =>
      rw [flag_delete_present tbl item_type item_id user_id it hfind] at h
      simp at h
  · intro it h
    rw [flag_delete_present tbl item_type item_id user_id it h]
    exact ⟨rfl, findItem_removeItem tbl _ _⟩

/-- Witness for C6: deleting on the empty table yields the typed not-found
errors with the table unchanged. -/
theorem delete_raises_iff_absent_witness :
    AlbumDynamo.delete_album [] "a9" = ([], .error (.albumDoesNotExist "a9")) ∧
    FlagDynamo.delete [] "post" "p9" "u9"
      = ([], .error (.notFlagged "post" "p9" "u9")) :=
  ⟨((delete_raises_iff_absent [] "a9" "post" "p9" "u9").1).mp rfl,
   ((delete_raises_iff_absent [] "a9" "post" "p9" "u9").2.2.1).mp rfl⟩

/-- C7: Fail-soft index maintenance.  `set_delete_at_fail_soft` never raises:
when its condition fails it returns the table unchanged together with the
supplied warning logged and no updated item, and in every case it either logs
nothing (the write went through) or performs no write; and
`clear_delete_at_fail_soft`, being unconditioned, always succeeds without a
warning.  The caller's primary flow is never aborted (the result type carries
no exception at all). -/
theorem fail_soft_never_raises (tbl : Table) (album_id delete_at : String) :
    (evalCond (AlbumDynamo.get_album tbl album_id) (.not (.gtNum "postCount" 0)) = false →
      AlbumDynamo.set_delete_at_fail_soft tbl album_id delete_at
        = (tbl, ["Failed to set deleteAt GSI for album `" ++ album_id ++ "`"], none)) ∧
    (∀ tbl' logs res,
      AlbumDynamo.set_delete_at_fail_soft tbl album_id delete_at = (tbl', logs, res) →
      logs = [] ∨
        (logs = ["Failed to set deleteAt GSI for album `" ++ album_id ++ "`"] ∧
         tbl' = tbl ∧ res = none)) ∧
    (∃ tbl' it', AlbumDynamo.clear_delete_at_fail_soft tbl album_id
        = (tbl', [], some it')) := by
  refine ⟨?_, ?_, ?_⟩
  · intro h
    have h' : evalCond (findItem tbl (AlbumDynamo.pk album_id).1 (AlbumDynamo.pk album_id).2)
        (Cond.not (.gtNum "postCount" 0)) = false := h
    rw [AlbumDynamo.set_delete_at_fail_soft, update_item_fail_soft,
      runUpdateOp_cond_false _ _ h']
  · intro tbl' logs res heq
    rw [AlbumDynamo.set_delete_at_fail_soft, update_item_fail_soft] at heq
    rcases runUpdateOp_cases tbl
        ⟨(AlbumDynamo.pk album_id).1, (AlbumDynamo.pk album_id).2,
         [.setVal "gsiK1PartitionKey" (.str "album"), .setVal "gsiK1SortKey" (.str delete_at)],
         .not (.gtNum "postCount" 0)⟩ with
      ⟨-, hrun⟩ | ⟨it0, -, -, hrun⟩ | ⟨-, -, hrun⟩
    · rw [hrun] at heq
      exact .inr ⟨(congrArg (fun p => p.2.1) heq).symm,
        (congrArg Prod.fst heq).symm, (congrArg (fun p => p.2.2) heq).symm⟩
    · rw [hrun] at heq
      exact .inl (congrArg (fun p => p.2.1) heq).symm
    · rw [hrun] at heq
      exact .inl (congrArg (fun p => p.2.1) heq).symm
  · rcases runUpdateOp_cases tbl
        ⟨(AlbumDynamo.pk album_id).1, (AlbumDynamo.pk album_id).2,
         [.remove "gsiK1PartitionKey", .remove "gsiK1SortKey"], .true⟩ with
      ⟨hc, -⟩ | ⟨it0, -, -, hrun⟩ | ⟨-, -, hrun⟩
    · exact absurd hc (by simp [evalCond])
    · exact ⟨_, _, by rw [AlbumDynamo.clear_delete_at_fail_soft, update_item_fail_soft, hrun]⟩
    · exact ⟨_, _, by rw [AlbumDynamo.clear_delete_at_fail_soft, update_item_fail_soft, hrun]⟩

/-- A concrete album record with `postCount = 1`, on which the deferred
deletion condition `NOT postCount > 0` fails. -/
def onePostAlbumTbl : Table :=
  [⟨"album/a3", "-", [("name", .str "third"), ("postCount", .num 1)]⟩]

/-- Witness for C7: scheduling deferred deletion for an album that still has
a post logs the warning, performs no write, and raises nothing. -/
theorem fail_soft_never_raises_witness :
    AlbumDynamo.set_delete_at_fail_soft onePostAlbumTbl "a3" "2021-01-01T00:00:00Z"
      = (onePostAlbumTbl,
         ["Failed to set deleteAt GSI for album `" ++ "a3" ++ "`"], none) :=
  (fail_soft_never_raises onePostAlbumTbl "a3" "2021-01-01T00:00:00Z").1 (by decide)

theorem storeMapped_not_assertion (p : Table × Except DynErr Item) (e : String) :
    (match p with
     | (tbl', .ok it0) => ((tbl', Except.ok it0) : Table × Except SetErr Item)
     | (tbl', .error err) => (tbl', .error (.storeError err))).2
      ≠ .error (.assertionError e) := by
  obtain ⟨tbl', r⟩ := p
  cases r with
  | ok it0 => simp
  | error err => simp

/-- C9: Empty-string-removes convention.  On an existing album record,
`AlbumDynamo.set` with `description = ""` produces an update that removes the
`description` attribute, while a non-empty description sets it to the given
value; in both cases every attribute other than `description` (no `name` was
passed) is left unchanged. -/
theorem set_empty_string_removes (tbl : Table) (album_id : String) (it : Item)
    (d : String) (hit : AlbumDynamo.get_album tbl album_id = some it) :
    (∃ tbl' it',
      AlbumDynamo.set tbl album_id none (some "") = (tbl', .ok it') ∧
      AlbumDynamo.get_album tbl' album_id = some it' ∧
      it'.getAttr "description" = none ∧
      ∀ a, a ≠ "description" → it'.getAttr a = it.getAttr a) ∧
    (d ≠ "" →
      ∃ tbl' it',
      AlbumDynamo.set tbl album_id none (some d) = (tbl', .ok it') ∧
      AlbumDynamo.get_album tbl' album_id = some it' ∧
      it'.getAttr "description" = some (.str d) ∧
      ∀ a, a ≠ "description" → it'.getAttr a = it.getAttr a) := by
  have hdK : ("description" : String) ≠ "partitionKey" := by decide
  have hdS : ("description" : String) ≠ "sortKey" := by decide
  have hfind : findItem tbl (AlbumDynamo.pk album_id).1 (AlbumDynamo.pk album_id).2
      = some it := hit
  have hkey := findItem_some_key _ _ _ _ hfind
  constructor
  · rcases runUpdateOp_cases tbl
        ⟨(AlbumDynamo.pk album_id).1, (AlbumDynamo.pk album_id).2,
         [.remove "description"], .true⟩ with
      ⟨hc, -⟩ | ⟨it0, -, hfind0, hrun⟩ | ⟨-, hfind0, -⟩
    · exact absurd hc (by simp [evalCond])
    · have hit0 : it0 = it := Option.some.inj ((show findItem tbl
          (AlbumDynamo.pk album_id).1 (AlbumDynamo.pk album_id).2 = some it0
          from hfind0).symm.trans hfind)
      subst hit0
      refine ⟨replaceItem tbl (AlbumDynamo.pk album_id).1 (AlbumDynamo.pk album_id).2
          ⟨it0.partitionKey, it0.sortKey,
           List.foldl applyAction it0.attrs [.remove "description"]⟩,
        ⟨it0.partitionKey, it0.sortKey,
         List.foldl applyAction it0.attrs [.remove "description"]⟩,
        ?_, ?_, ?_, ?_⟩
      · show (match runUpdateOp tbl
            ⟨(AlbumDynamo.pk album_id).1, (AlbumDynamo.pk album_id).2,
             [.remove "description"], .true⟩ with
          | (tbl', .ok it0) => ((tbl', Except.ok it0) : Table × Except SetErr Item)
          | (tbl', .error e) => (tbl', .error (.storeError e))) = _
        rw [hrun]
      · exact findItem_replaceItem tbl (AlbumDynamo.pk album_id).1 (AlbumDynamo.pk album_id).2
          _ hkey.1 hkey.2 (by rw [hfind]; rfl)
      · show Item.getAttr _ "description" = none
        rw [getAttr_eq_lookup _ _ hdK hdS]
        exact lookup_removeAttrList_self it0.attrs "description"
      · intro a ha
        by_cases h1 : a = "partitionKey"
        · subst h1
          rfl
        · by_cases h2 : a = "sortKey"
          · subst h2
            rfl
          · rw [getAttr_eq_lookup _ a h1 h2, getAttr_eq_lookup _ a h1 h2]
            exact lookup_removeAttrList_ne it0.attrs _ a (Ne.symm ha)
    · exact absurd ((show findItem tbl (AlbumDynamo.pk album_id).1
        (AlbumDynamo.pk album_id).2 = none from hfind0).symm.trans hfind) (by simp)
  · intro hdne
    have hd0 : (d == "") = false := beq_eq_false_iff_ne.mpr hdne
    have hseteq : AlbumDynamo.set tbl album_id none (some d)
        = match runUpdateOp tbl
            ⟨(AlbumDynamo.pk album_id).1, (AlbumDynamo.pk album_id).2,
             [.setVal "description" (.str d)], .true⟩ with
          | (tbl', .ok it0) => ((tbl', Except.ok it0) : Table × Except SetErr Item)
          | (tbl', .error e) => (tbl', .error (.storeError e)) := by
      rw [AlbumDynamo.set.eq_def]
      simp only [hd0]
      rfl
    rcases runUpdateOp_cases tbl
        ⟨(AlbumDynamo.pk album_id).1, (AlbumDynamo.pk album_id).2,
         [.setVal "description" (.str d)], .true⟩ with
      ⟨hc, -⟩ | ⟨it0, -, hfind0, hrun⟩ | ⟨-, hfind0, -⟩
    · exact absurd hc (by simp [evalCond])
    · have hit0 : it0 = it := Option.some.inj ((show findItem tbl
          (AlbumDynamo.pk album_id).1 (AlbumDynamo.pk album_id).2 = some it0
          from hfind0).symm.trans hfind)
      subst hit0
      refine ⟨replaceItem tbl (AlbumDynamo.pk album_id).1 (AlbumDynamo.pk album_id).2
          ⟨it0.partitionKey, it0.sortKey,
           List.foldl applyAction it0.attrs [.setVal "description" (.str d)]⟩,
        ⟨it0.partitionKey, it0.sortKey,
         List.foldl applyAction it0.attrs [.setVal "description" (.str d)]⟩,
        ?_, ?_, ?_, ?_⟩
      · rw [hseteq, hrun]
      · exact findItem_replaceItem tbl (AlbumDynamo.pk album_id).1 (AlbumDynamo.pk album_id).2
          _ hkey.1 hkey.2 (by rw [hfind]; rfl)
      · show Item.getAttr _ "description" = some (.str d)
        rw [getAttr_eq_lookup _ _ hdK hdS]
        exact lookup_setAttrList_self it0.attrs "description" (.str d)
      · intro a ha
        by_cases h1 : a = "partitionKey"
        · subst h1
          rfl
        · by_cases h2 : a = "sortKey"
          · subst h2
            rfl
          · rw [getAttr_eq_lookup _ a h1 h2, getAttr_eq_lookup _ a h1 h2]
            exact lookup_setAttrList_ne it0.attrs _ a _ (Ne.symm ha)
    · exact absurd ((show findItem tbl (AlbumDynamo.pk album_id).1
        (AlbumDynamo.pk album_id).2 = none from hfind0).symm.trans hfind) (by simp)

/-- A concrete album record carrying a `description` attribute. -/
def describedAlbumTbl : Table :=
  [⟨"album/a4", "-", [("name", .str "fourth"), ("description", .str "old")]⟩]

/-- Witness for C9: setting `description = ""` on a concrete album removes
the attribute while leaving the other attributes unchanged. -/
theorem set_empty_string_removes_witness :
    ∃ tbl' it',
      AlbumDynamo.set describedAlbumTbl "a4" none (some "") = (tbl', .ok it') ∧
      AlbumDynamo.get_album tbl' "a4" = some it' ∧
      it'.getAttr "description" = none ∧
      ∀ a, a ≠ "description" →
        it'.getAttr a = (⟨"album/a4", "-",
          [("name", .str "fourth"), ("description", .str "old")]⟩ : Item).getAttr a :=
  (set_empty_string_removes describedAlbumTbl "a4"
    ⟨"album/a4", "-", [("name", .str "fourth"), ("description", .str "old")]⟩
    "x" rfl).1

/-- C10: Implicit precondition of `AlbumDynamo.set`.  Calling `set` with both
`name` and `description` equal to `None`, or with `name` equal to the empty
string, fails the corresponding assertion before any store write is attempted
(the table is returned unchanged); under the precondition (`name` is `None`
or a non-empty string, and at least one of `name` / `description` is given)
no assertion error can be produced — the empty-string-removes convention does
not apply to `name`. -/
theorem set_assertions (tbl : Table) (album_id : String)
    (name description : Option String) :
    (AlbumDynamo.set tbl album_id none none
      = (tbl, .error (.assertionError "Action-less post edit requested"))) ∧
    (∀ d : Option String, AlbumDynamo.set tbl album_id (some "") d
      = (tbl, .error (.assertionError "All albums must have names"))) ∧
    ((name = none ∨ ∃ s, s ≠ "" ∧ name = some s) →
     (name ≠ none ∨ description ≠ none) →
     ∀ e, (AlbumDynamo.set tbl album_id name description).2
        ≠ .error (.assertionError e)) := by
  refine ⟨rfl, fun d => rfl, ?_⟩
  intro hname hsome e
  cases name with
  | none =>
    cases description with
    | none =>
      rcases hsome with h | h
      · exact absurd rfl h
      · exact absurd rfl h
    | some d =>
      exact storeMapped_not_assertion _ e
  | some s =>
    have hs : s ≠ "" := by
      rcases hname with h | ⟨s', hs', heq⟩
      · exact absurd h (by simp)
      · rwa [← Option.some.inj heq] at hs'
    have hs0 : ((some s : Option String) == some "") = false :=
      beq_eq_false_iff_ne.mpr (fun h => hs (Option.some.inj h))
    rw [AlbumDynamo.set.eq_def]
    simp only [hs0]
    cases description with
    | none => exact storeMapped_not_assertion _ e
    | some d => exact storeMapped_not_assertion _ e

/-- Witness for C10: the two assertion failures and an assertion-free call on
concrete inputs. -/
theorem set_assertions_witness :
    (AlbumDynamo.set [] "a5" none none
      = ([], .error (.assertionError "Action-less post edit requested"))) ∧
    (AlbumDynamo.set [] "a5" (some "") (some "x")
      = ([], .error (.assertionError "All albums must have names"))) ∧
    (AlbumDynamo.set [] "a5" (some "n") none).2
      ≠ .error (.assertionError "Action-less post edit requested") :=
  ⟨(set_assertions [] "a5" (some "n") none).1,
   (set_assertions [] "a5" (some "n") none).2.1 (some "x"),
   (set_assertions [] "a5" (some "n") none).2.2
     (.inr ⟨"n", by decide, rfl⟩) (.inl (by simp))
     "Action-less post edit requested"⟩

end Backend
